import Mathlib

/-!
Shallow embedding of the query-classification / semantic-retrieval pipeline
of the beautybotv2 repository, and proofs of the frozen claims about it.

The embedding models the external collaborators (classifier LLM, Supabase
datastore, embedding provider, Qdrant vector index, answer LLM) as oracle
functions collected in an `Env` record; each oracle returns `Except Unit α`
so that a failed network call is an explicit error value.  Every embedded
pipeline function additionally returns the list of collaborator calls it
made (`List CallEv`), in order, so that "makes zero datastore calls" and
"the search request carries no filter" are statable.

JavaScript numbers are modelled as rationals (`ℚ`); JavaScript truthiness
of optional strings / numbers is modelled by the `truthyS` / `truthyN` /
`truthyQ` helpers (`undefined`, `""`, `0` are falsy).  Rationals produced
by the embedded code are built through `ratOfFrac`, a constructor that the
kernel can evaluate (it normalizes with a fuel-based Euclid instead of
`Nat.gcd`, whose well-founded recursion does not reduce definitionally).
-/

set_option linter.unusedVariables false

/-! ## JavaScript value helpers -/

/-- Truthiness of an optional string: `undefined` and `""` are falsy. -/
def truthyS : Option String → Bool
  | some s => !s.isEmpty
  | none => false

/-- Truthiness of an optional natural number: `undefined` and `0` are falsy. -/
def truthyN : Option Nat → Bool
  | some n => decide (n ≠ 0)
  | none => false

/-- Truthiness of an optional rational: `undefined` and `0` are falsy. -/
def truthyQ : Option ℚ → Bool
  | some q => decide (q ≠ 0)
  | none => false

/-- The JavaScript idiom `o || d` on an optional string. -/
def jsOr (o : Option String) (d : String) : String :=
  if truthyS o then o.getD d else d

/-- The JavaScript idiom `o || d` on an optional natural number. -/
def jsOrN (o : Option Nat) (d : Nat) : Nat :=
  if truthyN o then o.getD d else d

/-- Template-literal rendering of a possibly-undefined string
(`${undefined}` prints as "undefined"). -/
def jsTemplate (o : Option String) : String :=
  o.getD "undefined"

/-! ## Kernel-evaluable rationals -/

/-- Euclid's algorithm with explicit fuel, so that the kernel can reduce it
(`Nat.gcd` is defined by well-founded recursion and gets stuck). -/
def natGcdFuel : Nat → Nat → Nat → Nat
  | 0, _, n => n
  | fuel+1, m, n => if m = 0 then n else natGcdFuel fuel (n % m) m

/-- `Nat.gcd` by fuelled Euclid; `m + 1` units of fuel always suffice. -/
def natGcd (m n : Nat) : Nat := natGcdFuel (m + 1) m n

theorem natGcdFuel_eq (fuel : Nat) :
    ∀ m n : Nat, m < fuel → natGcdFuel fuel m n = Nat.gcd m n := by
  induction fuel with
  | zero => intro m n h; omega
  | succ fuel ih =>
    intro m n h
    by_cases hm : m = 0
    · subst hm; simp [natGcdFuel]
    · rw [natGcdFuel, if_neg hm, ih (n % m) m (by
        have := Nat.mod_lt n (Nat.pos_of_ne_zero hm); omega)]
      exact (Nat.gcd_rec m n).symm

theorem natGcd_eq (m n : Nat) : natGcd m n = Nat.gcd m n :=
  natGcdFuel_eq (m + 1) m n (Nat.lt_succ_self m)

/-- The rational `n / d`, built directly in lowest terms so that the kernel
can evaluate it (`Rat.div` and `mkRat` normalize with `Nat.gcd` and do not
reduce). For `d = 0` (never hit by the embedded code) the result is 0. -/
def ratOfFrac (n : Int) (d : Nat) : ℚ :=
  let g := natGcd n.natAbs d
  let n' : Int := n / (g : Int)
  let d' : Nat := d / g
  if h : d' ≠ 0 ∧ natGcd n'.natAbs d' = 1 then
    ⟨n', d', h.1, by have h2 := h.2; rwa [natGcd_eq] at h2⟩
  else 0

example : ratOfFrac 29999 100 = Rat.mk' 29999 100 (by decide) (by decide) := by decide

/-! ## Price parsing (`parsePriceToNumber`, ProductQueryService.ts lines 53-64,
product-query-processor.ts lines 53-64) -/

/-- JavaScript whitespace as relevant to `trim` and `parseFloat`. -/
def isJsWS (c : Char) : Bool :=
  c = ' ' || c = '\t' || c = '\n' || c = '\r'

/-- `String.prototype.trim` on a character list. -/
def trimChars (l : List Char) : List Char :=
  ((l.dropWhile isJsWS).reverse.dropWhile isJsWS).reverse

/-- `.replace(/TL|₺/g, '')`: delete every occurrence of "TL" and of '₺',
scanning left to right. -/
def stripCurrency : List Char → List Char
  | [] => []
  | 'T' :: 'L' :: rest => stripCurrency rest
  | '₺' :: rest => stripCurrency rest
  | c :: rest => c :: stripCurrency rest

/-- `.replace(',', '.')`: replace only the first comma with a dot. -/
def replaceFirstComma : List Char → List Char
  | [] => []
  | ',' :: rest => '.' :: rest
  | c :: rest => c :: replaceFirstComma rest

/-- The value of a list of decimal digit characters. -/
def digitsToNat (l : List Char) : Nat :=
  l.foldl (fun acc c => acc * 10 + (c.toNat - '0'.toNat)) 0

/-- The (possibly signed) exponent digits after `e`/`E` in `parseFloat`;
an exponent with no digits contributes 0. -/
def parseSignedExp : List Char → Int
  | '-' :: r => -(digitsToNat (r.takeWhile Char.isDigit) : Int)
  | '+' :: r => (digitsToNat (r.takeWhile Char.isDigit) : Int)
  | r => (digitsToNat (r.takeWhile Char.isDigit) : Int)

/-- The exponent part of `parseFloat`, read from the remainder after the
mantissa. -/
def parseExp : List Char → Int
  | 'e' :: r => parseSignedExp r
  | 'E' :: r => parseSignedExp r
  | _ => 0

/-- The value `±(mantissa digits) · 10^(e - fractional length)`, computed on
integers and turned into a rational at the very end via `ratOfFrac`. -/
def parseFloatVal (neg : Bool) (n0 L : Nat) (e : Int) : ℚ :=
  let n1 : Int := if neg then -(n0 : Int) else (n0 : Int)
  if (L : Int) ≤ e then ratOfFrac (n1 * (10 : Int) ^ (e - L).toNat) 1
  else ratOfFrac n1 ((10 : Nat) ^ ((L : Int) - e).toNat)

/-- `parseFloat` over rationals: skip leading whitespace, optional sign,
integer digits, optional fraction digits, optional exponent; the longest
valid numeric prefix is parsed and `none` (NaN) returned when there is no
digit at all. -/
def parseFloatChars (l : List Char) : Option ℚ :=
  let l1 := l.dropWhile isJsWS
  let negAndRest : Bool × List Char :=
    match l1 with
    | '-' :: r => (true, r)
    | '+' :: r => (false, r)
    | _ => (false, l1)
  let neg := negAndRest.1
  let l2 := negAndRest.2
  let ip := l2.takeWhile Char.isDigit
  let l3 := l2.dropWhile Char.isDigit
  let fracAndRest : List Char × List Char :=
    match l3 with
    | '.' :: r => (r.takeWhile Char.isDigit, r.dropWhile Char.isDigit)
    | _ => ([], l3)
  let fp := fracAndRest.1
  let rest := fracAndRest.2
  if ip.isEmpty && fp.isEmpty then none
  else some (parseFloatVal neg (digitsToNat ip * 10 ^ fp.length + digitsToNat fp)
    fp.length (parseExp rest))

/-- `parsePriceToNumber(priceStr)`: `undefined`/`""` give `null`; otherwise
currency markers are removed, the string trimmed, thousands dots deleted,
the first comma turned into a decimal dot, and the result `parseFloat`ed
(`null` on NaN). -/
def parsePriceToNumber (priceStr : Option String) : Option ℚ :=
  match priceStr with
  | none => none
  | some s =>
    if s.isEmpty then none
    else
      let numStr := trimChars (stripCurrency s.data)
      let normalized := replaceFirstComma (numStr.filter (fun c => c ≠ '.'))
      parseFloatChars normalized

example : parsePriceToNumber (some "1.990 TL") = some 1990 := by decide
example : parsePriceToNumber (some "299,99 TL") = some (ratOfFrac 29999 100) := by decide
example : parsePriceToNumber (some "175 TL") = some 175 := by decide
example : parsePriceToNumber (some "0 TL") = some 0 := by decide
example : parsePriceToNumber (some "") = none := by decide
example : parsePriceToNumber none = none := by decide
example : parsePriceToNumber (some "abc") = none := by decide

/-! ## Data model -/

/-- The loosely validated JSON object the classifier LLM returns, cast to
`QueryClassification` without checks (src/unnamed/part_002 lines 36-46).
Every field is optional: the JSON may omit any of them. -/
structure Classification where
  mode : Option String := none
  sql : Option String := none
  semantic_type : Option String := none
  category : Option String := none
  product_id : Option String := none
  ef_search : Option Nat := none
  distance_metric : Option String := none
  search_mode : Option String := none
  message : Option String := none
deriving DecidableEq, Repr

/-- A product payload stored in the vector index
(ProductQueryService.ts lines 5-16). -/
structure ProductPayload where
  product_id : Option String := none
  name : Option String := none
  price : Option String := none
  subcategory : Option String := none
  description : Option String := none
  extra_description : Option String := none
  mensei : Option String := none
  renk : Option String := none
  url : Option String := none
  rating : Option String := none
deriving DecidableEq, Repr

/-- One hit returned by the vector index: a similarity score and an
optional payload (`with_payload` may be missing). -/
structure ScoredDoc where
  score : ℚ
  payload : Option ProductPayload
deriving DecidableEq, Repr

/-- One equality condition of a Qdrant filter:
`{ key: k, match: { value: v } }`. -/
structure Condition where
  key : String
  value : String
deriving DecidableEq, Repr

/-- A JavaScript filter object as it reaches `semanticSearch`: either the
empty object `{}` (the parameter default) or `{ must: [...] }`. -/
inductive JFilter
  | emptyObj
  | mustObj (must : List Condition)
deriving DecidableEq, Repr

/-- `Object.keys(filter).length` for a `JFilter`. -/
def JFilter.keysLength : JFilter → Nat
  | .emptyObj => 0
  | .mustObj _ => 1

/-- The search request object handed to `qdrantClient.search`: vector,
limit, `with_payload`, optional filter, optional `params.hnsw_ef`, and the
optional `exact` flag (absent modelled as `false`). -/
structure SearchRequest where
  vector : List ℚ
  limit : Nat
  with_payload : Bool
  filter : Option JFilter := none
  hnsw_ef : Option Nat := none
  exact : Bool := false
deriving DecidableEq, Repr

/-- A row returned by the structured datastore, modelled as its serialized
form (the pipeline only ever embeds rows into prompts via
`JSON.stringify`). -/
def Row := String
deriving DecidableEq, Repr

/-- `JSON.stringify(data)` on a row list, rows being already serialized. -/
def jsonStringifyRows (rows : List Row) : String :=
  "[" ++ String.intercalate "," rows ++ "]"

/-- `JSON.stringify(data, null, 2)` on a row list. -/
def jsonStringifyRowsPretty (rows : List Row) : String :=
  "[\n  " ++ String.intercalate ",\n  " rows ++ "\n]"

/-- One call to an external collaborator, recorded in order of issue. -/
inductive CallEv
  | classifierLLM (prompt : String)
  | datastore
  | embed (text : String)
  | vectorSearch (req : SearchRequest)
  | answerLLM (prompt : String)
deriving DecidableEq, Repr

/-- The external collaborators, as deterministic oracles.  `classifierLLM`
models the chat call plus `JSON.parse` plus the unchecked cast (an invalid
HTTP response or unparseable body is `Except.error`); `datastore` models
the fixed Supabase `select().limit(5)` that `executeDirectSql` always runs;
`answerLLM` returns the possibly-null message content of the completion. -/
structure Env where
  classifierLLM : String → Except Unit Classification
  datastore : Except Unit (List Row)
  embed : String → Except Unit (List ℚ)
  qdrantSearch : SearchRequest → Except Unit (List ScoredDoc)
  answerLLM : String → Except Unit (Option String)

/-! ## qdrantService.ts -/

namespace QdrantService

/-- `searchSimilar(vector, limit, collectionName)` (qdrantService.ts lines
121-138): a plain search request with payloads, no filter, no tuning
parameters. -/
def searchSimilar (env : Env) (vector : List ℚ) (limit : Nat) :
    Except Unit (List ScoredDoc) × List CallEv :=
  let req : SearchRequest := { vector := vector, limit := limit, with_payload := true }
  (env.qdrantSearch req, [CallEv.vectorSearch req])

end QdrantService

/-! ## The query-processing pipeline (src/unnamed/part_002) -/

namespace QueryProcessor

/-- The filter object built by the router's semantic branch before it is
passed to `semanticSearch` (which ignores it). -/
structure SemanticFilters where
  product_id : Option String := none
  subcategory : Option String := none
deriving DecidableEq, Repr

/-- The search-parameter object built by the router's semantic branch
before it is passed to `semanticSearch` (which ignores it).  `processQuery`
populates `ef`/`metric`; `processUserQuery` populates `ef_search` /
`distance_metric` / `search_mode`. -/
structure SemanticSearchParams where
  ef : Option Nat := none
  metric : Option String := none
  ef_search : Option Nat := none
  distance_metric : Option String := none
  search_mode : Option String := none
deriving DecidableEq, Repr

/-- The classification prompt (part_002 lines 75-87); literal braces of the
JSON examples are escaped. -/
def classifierPrompt (query : String) : String :=
  "Classify the following user query into one of four modes: 'direct', 'semantic', 'non_rag', or 'declined'.\n" ++
  "If the query can be answered with a direct SQL query to our product database, choose 'direct' and provide the SQL.\n" ++
  "If the query requires semantic search on beauty and cosmetics products, choose 'semantic' and specify semantic_type (specific_product, category, or high-level).\n" ++
  "If the query is on beauty and cosmetics but not related to our data, or is high-level knowledge, choose 'non_rag'.\n" ++
  "If the query is risky or unrelated to beauty/cosmetics, choose 'declined'.\n\n" ++
  "Respond in JSON format with the following structure:\n" ++
  "For direct: \x7b\"mode\": \"direct\", \"sql\": \"SQL_QUERY_HERE\"\x7d\n" ++
  "For semantic: \x7b\"mode\": \"semantic\", \"semantic_type\": \"category\", \"category\": \"face cream\", \"ef_search\": 50, \"distance_metric\": \"cosine\", \"search_mode\": \"approximate\"\x7d\n" ++
  "For non_rag: \x7b\"mode\": \"non_rag\"\x7d\n" ++
  "For declined: \x7b\"mode\": \"declined\", \"message\": \"I'm sorry, but I cannot answer that.\"\x7d\n\n" ++
  "Query: " ++ query

/-- `llmCall(prompt)` (part_002 lines 53-67): chat completion in JSON mode,
`JSON.parse` of the content; any error is rethrown. -/
def llmCall (env : Env) (prompt : String) :
    Except Unit Classification × List CallEv :=
  (env.classifierLLM prompt, [CallEv.classifierLLM prompt])

/-- `classifyQuery(query)` (part_002 lines 74-96): call the LLM with the
classification prompt and cast the JSON unchecked; on any thrown error
return `declined` with a generic apology. -/
def classifyQuery (env : Env) (query : String) :
    Classification × List CallEv :=
  match llmCall env (classifierPrompt query) with
  | (.ok c, t) => (c, t)
  | (.error _, t) =>
    ({ mode := some "declined",
       message := some "Sorry, I encountered an error processing your request." }, t)

/-- `executeDirectSql(sqlQuery)` (part_002 lines 104-119): runs the fixed
`from('product_inventory').select().limit(5)` (the SQL string is ignored by
the demonstration code) and rethrows errors. -/
def executeDirectSql (env : Env) (sqlQuery : String) :
    Except Unit (List Row) × List CallEv :=
  (env.datastore, [CallEv.datastore])

/-- `semanticSearch(query, embeddingModel, qdrantClient, filters,
searchParams, topK)` (part_002 lines 131-151): embeds the query and calls
`searchSimilar(queryVector, topK, COLLECTION_NAME)`.  The `filters` and
`searchParams` arguments are accepted and never used. -/
def semanticSearch (env : Env) (query : String)
    (filters : SemanticFilters) (searchParams : SemanticSearchParams)
    (topK : Nat) : Except Unit (List ScoredDoc) × List CallEv :=
  match env.embed query with
  | .error e => (.error e, [CallEv.embed query])
  | .ok queryVector =>
    let r := QdrantService.searchSimilar env queryVector topK
    (r.1, CallEv.embed query :: r.2)

/-- One rendered block of `aggregateContext` (part_002 lines 161-167). -/
def renderDoc (i : Nat) (p : ProductPayload) : String :=
  "[Document " ++ toString (i + 1) ++ "]\n" ++
  "Product: " ++ jsOr p.name "N/A" ++ "\n" ++
  "ID: " ++ jsOr p.product_id "N/A" ++ "\n" ++
  "Price: " ++ jsOr p.price "N/A" ++ "\n" ++
  "Category: " ++ jsOr p.subcategory "N/A" ++ "\n" ++
  "Rating: " ++ jsOr p.rating "N/A" ++ "\n" ++
  "URL: " ++ jsOr p.url "N/A"

/-- The blocks of `aggregateContext`, left to right; accessing the fields
of a missing payload raises a `TypeError` (modelled as `Except.error`). -/
def renderDocs : Nat → List ScoredDoc → Except Unit (List String)
  | _, [] => .ok []
  | i, d :: rest =>
    match d.payload with
    | none => .error ()
    | some p =>
      match renderDocs (i + 1) rest with
      | .error e => .error e
      | .ok strs => .ok (renderDoc i p :: strs)

/-- `aggregateContext(documents)` (part_002 lines 158-171): map each
document to its block and join with blank lines; the empty list yields
`""`. -/
def aggregateContext (documents : List ScoredDoc) : Except Unit String :=
  match renderDocs 0 documents with
  | .error e => .error e
  | .ok blocks => .ok (String.intercalate "\n\n" blocks)

/-- `generatePromptBasedOnType(semanticType, context, query)` (part_002
lines 180-197). -/
def generatePromptBasedOnType (semanticType context query : String) : String :=
  if semanticType == "specific_product" then
    "Using the detailed product data:\n" ++ context ++ "\n\nAnswer the question: " ++ query
  else if semanticType == "category" then
    "Based on the product information for this category:\n" ++ context ++ "\n\nAnswer the question: " ++ query
  else
    "Using comprehensive product data:\n" ++ context ++ "\n\nAnswer the question: " ++ query

/-- `openaiLlmCall(prompt)` (part_002 lines 204-218): final-answer chat
completion; a null or empty content is replaced by a fixed apology, errors
are rethrown. -/
def openaiLlmCall (env : Env) (prompt : String) :
    Except Unit String × List CallEv :=
  match env.answerLLM prompt with
  | .ok content =>
    (.ok (jsOr content "Sorry, I could not generate an answer."), [CallEv.answerLLM prompt])
  | .error e => (.error e, [CallEv.answerLLM prompt])

/-- The generic message of the top-level `catch` of both pipelines. -/
def genericErrorMessage : String :=
  "I encountered an error while processing your question. Please try again."

/-- The `switch (classification.mode)` of `processQuery` (part_002 lines
231-285): the four mode branches plus the defensive default. -/
def processQueryRoute (env : Env) (query : String)
    (classification : Classification) :
    Except Unit String × List CallEv :=
  match classification.mode with
    | some "direct" =>
      if truthyS classification.sql then
        match executeDirectSql env (classification.sql.getD "") with
        | (.error e, t) => (.error e, t)
        | (.ok sqlResults, t) =>
          let sqlContext := jsonStringifyRowsPretty sqlResults
          let sqlPrompt := "Based on the following database results:\n" ++ sqlContext ++
            "\n\nAnswer the user's question: " ++ query
          let r := openaiLlmCall env sqlPrompt
          (r.1, t ++ r.2)
      else
        (.ok "I understand this requires a direct database query, but I couldn't generate the SQL.", [])
    | some "semantic" =>
      let searchParams : SemanticSearchParams :=
        { ef := if truthyN classification.ef_search then classification.ef_search else none,
          metric := if truthyS classification.distance_metric then classification.distance_metric else none }
      let filters : SemanticFilters :=
        { subcategory := if truthyS classification.category then classification.category else none }
      match semanticSearch env query filters searchParams 5 with
      | (.error e, t) => (.error e, t)
      | (.ok searchResults, t) =>
        match aggregateContext searchResults with
        | .error e => (.error e, t)
        | .ok context =>
          let semanticPrompt := generatePromptBasedOnType
            (jsOr classification.semantic_type "high-level") context query
          let r := openaiLlmCall env semanticPrompt
          (r.1, t ++ r.2)
    | some "non_rag" =>
      let nonRagPrompt := "Answer the following question about beauty and cosmetics without using specific product data:\n" ++
        query ++ "\n\nProvide a helpful, informative response based on general knowledge about beauty and cosmetics."
      openaiLlmCall env nonRagPrompt
    | some "declined" =>
      (.ok (jsOr classification.message "I'm sorry, but I cannot answer that question."), [])
    | _ =>
      (.ok "I'm not sure how to process your question. Could you rephrase it?", [])

/-- The body of `processQuery` (part_002 lines 225-290) before its
top-level `catch`: classification followed by the routing switch; the
returned trace is the classifier call followed by the branch's calls. -/
def processQueryBody (env : Env) (query : String) :
    Except Unit String × List CallEv :=
  ((processQueryRoute env query (classifyQuery env query).1).1,
   (classifyQuery env query).2 ++ (processQueryRoute env query (classifyQuery env query).1).2)

/-- `processQuery(query)` (part_002 lines 225-290): the body wrapped in the
top-level `catch` that turns any error into a generic message. -/
def processQuery (env : Env) (query : String) : String × List CallEv :=
  match processQueryBody env query with
  | (.ok s, t) => (s, t)
  | (.error _, t) => (genericErrorMessage, t)

/-- The `if (mode === ...)` cascade of `processUserQuery` (part_002 lines
313-373): declined, direct, semantic, non_rag, then the fallback. -/
def processUserQueryRoute (env : Env) (query : String)
    (classification : Classification) :
    Except Unit String × List CallEv :=
  match classification.mode with
    | some "declined" =>
      (.ok (jsOr classification.message "I'm sorry, but I cannot answer that."), [])
    | some "direct" =>
      let sqlQuery := jsOr classification.sql ""
      match executeDirectSql env sqlQuery with
      | (.error e, t) => (.error e, t)
      | (.ok data, t) =>
        let prompt := "Based on the following data: " ++ jsonStringifyRows data ++
          "\nAnswer the question: " ++ query
        let r := openaiLlmCall env prompt
        (r.1, t ++ r.2)
    | some "semantic" =>
      let semanticType := jsOr classification.semantic_type "high_level"
      let filters : SemanticFilters :=
        if semanticType == "specific_product" then { product_id := classification.product_id }
        else if semanticType == "category" then { subcategory := classification.category }
        else {}
      let searchParams : SemanticSearchParams :=
        { ef_search := some (jsOrN classification.ef_search 50),
          distance_metric := some (jsOr classification.distance_metric "cosine"),
          search_mode := some (jsOr classification.search_mode "approximate") }
      match semanticSearch env query filters searchParams 5 with
      | (.error e, t) => (.error e, t)
      | (.ok documents, t) =>
        match aggregateContext documents with
        | .error e => (.error e, t)
        | .ok context =>
          let prompt := generatePromptBasedOnType semanticType context query
          let r := openaiLlmCall env prompt
          (r.1, t ++ r.2)
    | some "non_rag" =>
      let prompt := "Answer the following question as an expert on beauty and cosmetics. " ++
        "Ensure that no risky recommendations or advice on human life is provided." ++
        "\nQuestion: " ++ query
      openaiLlmCall env prompt
    | _ =>
      (.ok "I'm sorry, but I cannot answer that.", [])

/-- The body of `processUserQuery` (part_002 lines 302-378) before its
top-level `catch`. -/
def processUserQueryBody (env : Env) (query : String) :
    Except Unit String × List CallEv :=
  ((processUserQueryRoute env query (classifyQuery env query).1).1,
   (classifyQuery env query).2 ++ (processUserQueryRoute env query (classifyQuery env query).1).2)

/-- `processUserQuery(query, ...)` (part_002 lines 302-378): the body
wrapped in the top-level `catch`. -/
def processUserQuery (env : Env) (query : String) : String × List CallEv :=
  match processUserQueryBody env query with
  | (.ok s, t) => (s, t)
  | (.error _, t) => (genericErrorMessage, t)

end QueryProcessor

/-! ## ProductQueryService.ts (the same pipeline is duplicated line for line
in src/src/scripts/product-query-processor.ts, whose only differences are
logging, the chat model name, and a mojibake rendering of the currency sign
in the price regex; the embedding below covers both) -/

/-- The search options handed to `ProductQueryService.processQuery`:
subcategory / origin / color equality filters and price bounds. -/
structure SearchOptions where
  subcategory : Option String := none
  mensei : Option String := none
  renk : Option String := none
  minPrice : Option ℚ := none
  maxPrice : Option ℚ := none
deriving DecidableEq, Repr

namespace ProductQueryService

/-- `buildQdrantFilter(options)` (ProductQueryService.ts lines 89-120,
product-query-processor.ts lines 94-125): one equality condition per
truthy option among subcategory, mensei, renk; `undefined` when there are
no conditions, otherwise `{ must: conditions }`. -/
def buildQdrantFilter (options : SearchOptions) : Option JFilter :=
  let conditions : List Condition :=
    (if truthyS options.subcategory then
      [{ key := "subcategory", value := options.subcategory.getD "" }] else []) ++
    (if truthyS options.mensei then
      [{ key := "mensei", value := options.mensei.getD "" }] else []) ++
    (if truthyS options.renk then
      [{ key := "renk", value := options.renk.getD "" }] else [])
  if conditions.length = 0 then none
  else some (JFilter.mustObj conditions)

/-- The search-request object built by `semanticSearch` (ProductQueryService.ts
lines 137-155): payloads on, the filter only when the filter argument has
at least one key, `params.hnsw_ef` only in approximate mode, `exact` only
in exact mode. An absent filter argument defaults to `{}`. -/
def mkSearchRequest (queryEmbedding : List ℚ) (filterArg : Option JFilter)
    (efSearch : Nat) (searchMode : String) (topK : Nat) : SearchRequest :=
  let filter := filterArg.getD JFilter.emptyObj
  { vector := queryEmbedding
    limit := topK
    with_payload := true
    filter := if filter.keysLength > 0 then some filter else none
    hnsw_ef := if searchMode == "approximate" then some efSearch else none
    exact := searchMode == "exact" }

/-- `semanticSearch(query, filter, efSearch, searchMode, distanceMetric,
topK)` (ProductQueryService.ts lines 125-165): embed the query, build the
search request, search; errors are rethrown.  `distanceMetric` is accepted
and never used by the body, as in the source. -/
def semanticSearch (env : Env) (query : String) (filterArg : Option JFilter)
    (efSearch : Nat) (searchMode distanceMetric : String) (topK : Nat) :
    Except Unit (List ScoredDoc) × List CallEv :=
  match env.embed query with
  | .error e => (.error e, [CallEv.embed query])
  | .ok queryEmbedding =>
    let req := mkSearchRequest queryEmbedding filterArg efSearch searchMode topK
    (env.qdrantSearch req, [CallEv.embed query, CallEv.vectorSearch req])

/-- The body of the `results.filter` callback of `applyPriceFilter`
(ProductQueryService.ts lines 175-186): records without payload are
dropped; the price is parsed; a `null` or `0` price is falsy and dropped;
then each truthy bound is checked. -/
def priceKeep (minPrice maxPrice : Option ℚ) (result : ScoredDoc) : Bool :=
  match result.payload with
  | none => false
  | some payload =>
    let price := parsePriceToNumber payload.price
    if !truthyQ price then false
    else if truthyQ minPrice && decide (price.getD 0 < minPrice.getD 0) then false
    else if truthyQ maxPrice && decide (maxPrice.getD 0 < price.getD 0) then false
    else true

/-- `applyPriceFilter(results, minPrice, maxPrice)` (ProductQueryService.ts
lines 170-187, product-query-processor.ts lines 195-214): a no-op when both
bounds are falsy (`undefined` or `0`), otherwise the JavaScript filter with
`priceKeep`. -/
def applyPriceFilter (results : List ScoredDoc) (minPrice maxPrice : Option ℚ) :
    List ScoredDoc :=
  if !truthyQ minPrice && !truthyQ maxPrice then results
  else results.filter (priceKeep minPrice maxPrice)

/-- `score.toFixed(3)`: the decimal rendering of the score with three
fraction digits, rounding half up on the magnitude, computed on the
rational's numerator and denominator so the kernel can evaluate it. -/
def toFixed3 (q : ℚ) : String :=
  let sign := if q < 0 then "-" else ""
  let a := if q < 0 then -q else q
  let n : Nat := ((2000 * a.num + (a.den : Int)) / (2 * (a.den : Int))).toNat
  let ip := n / 1000
  let fp := n % 1000
  let fpStr := if fp < 10 then "00" ++ toString fp
    else if fp < 100 then "0" ++ toString fp
    else toString fp
  sign ++ toString ip ++ "." ++ fpStr

/-- One block of `ProductQueryService.aggregateContext` (lines 195-228):
name and price always print (with fallbacks), the remaining fields only
when truthy. -/
def renderProduct (i : Nat) (score : ℚ) (product : ProductPayload) : String :=
  "Product " ++ toString (i + 1) ++ " (Relevance: " ++ toFixed3 score ++ "):\n" ++
  "Name: " ++ jsOr product.name "Unknown" ++ "\n" ++
  "Price: " ++ jsOr product.price "Not specified" ++ "\n" ++
  (if truthyS product.subcategory then "Subcategory: " ++ product.subcategory.getD "" ++ "\n" else "") ++
  (if truthyS product.description then "Description: " ++ product.description.getD "" ++ "\n" else "") ++
  (if truthyS product.extra_description then "Additional Info: " ++ product.extra_description.getD "" ++ "\n" else "") ++
  (if truthyS product.mensei then "Origin: " ++ product.mensei.getD "" ++ "\n" else "") ++
  (if truthyS product.renk then "Color: " ++ product.renk.getD "" ++ "\n" else "") ++
  (if truthyS product.url then "URL: " ++ product.url.getD "" ++ "\n" else "") ++
  "\n"

/-- The `forEach` accumulation of `ProductQueryService.aggregateContext`;
reading the fields of a missing payload raises (modelled as `Except.error`). -/
def renderProducts : Nat → List ScoredDoc → Except Unit String
  | _, [] => .ok ""
  | i, d :: rest =>
    match d.payload with
    | none => .error ()
    | some product =>
      match renderProducts (i + 1) rest with
      | .error e => .error e
      | .ok s => .ok (renderProduct i d.score product ++ s)

/-- `aggregateContext(documents)` (ProductQueryService.ts lines 192-231):
a fixed header followed by one block per document. -/
def aggregateContext (documents : List ScoredDoc) : Except Unit String :=
  match renderProducts 0 documents with
  | .error e => .error e
  | .ok s => .ok ("Here is information about relevant products:\n\n" ++ s)

/-- `generatePrompt(query, context)` (ProductQueryService.ts lines 236-251). -/
def generatePrompt (query context : String) : String :=
  "\nYou are a helpful beauty product assistant. Answer the following query based ONLY on the provided product information.\n" ++
  "If the information needed is not in the context, say you don't have enough information rather than making things up.\n" ++
  "The user may ask in Turkish or English - respond in the same language as the query.\n\n" ++
  "Query: " ++ query ++ "\n\nContext:\n" ++ context ++ "\n\n" ++
  "Answer the query in a helpful, conversational way. Include specific product details when relevant.\n" ++
  "If multiple products are mentioned in the context, compare them if appropriate for the query.\n" ++
  "If prices are mentioned, include them in your response.\n"

/-- `openaiLlmCall(prompt)` (ProductQueryService.ts lines 256-270): unlike
the part_002 variant this one catches its own errors, and substitutes a
fixed string for a null/empty content. -/
def openaiLlmCall (env : Env) (prompt : String) : String × List CallEv :=
  match env.answerLLM prompt with
  | .ok content => (jsOr content "No response generated.", [CallEv.answerLLM prompt])
  | .error _ => ("Error generating response. Please try again.", [CallEv.answerLLM prompt])

/-- `processQuery(query, options)` (ProductQueryService.ts lines 278-326):
build the filter, search with efSearch 128 / approximate / cosine and an
over-fetched limit of 10, post-filter by price, keep the top 5, aggregate,
prompt, answer; any error yields the fixed error answer and no results. -/
def processQuery (env : Env) (query : String) (options : SearchOptions) :
    (String × List ScoredDoc) × List CallEv :=
  let filter := buildQdrantFilter options
  match semanticSearch env query filter 128 "approximate" "cosine" 10 with
  | (.error _, t) => (("Error processing your query. Please try again.", []), t)
  | (.ok searchResults, t) =>
    let filteredResults := applyPriceFilter searchResults options.minPrice options.maxPrice
    let topResults := filteredResults.take 5
    match aggregateContext topResults with
    | .error _ => (("Error processing your query. Please try again.", []), t)
    | .ok context =>
      let prompt := generatePrompt query context
      let r := openaiLlmCall env prompt
      ((r.1, topResults), t ++ r.2)

end ProductQueryService

/-! ## formatProductsAsContext (src/unnamed/part_002 lines 405-423) -/

/-- One block of `formatProductsAsContext`; fields render through template
literals, so a missing field prints as "undefined". -/
def formatProductBlock (i : Nat) (p : ProductPayload) : String :=
  "Product " ++ toString (i + 1) ++ ": " ++ jsTemplate p.name ++ "\n" ++
  "Category: " ++ jsTemplate p.subcategory ++ "\n" ++
  "Price: " ++ jsTemplate p.price ++ "\n" ++
  (if truthyS p.rating then "Rating: " ++ p.rating.getD "" ++ "/5\n" else "") ++
  "URL: " ++ jsTemplate p.url ++ "\n\n"

/-- The `forEach` of `formatProductsAsContext`; reading the fields of a
missing payload raises. -/
def formatProductBlocks : Nat → List ScoredDoc → Except Unit String
  | _, [] => .ok ""
  | i, d :: rest =>
    match d.payload with
    | none => .error ()
    | some p =>
      match formatProductBlocks (i + 1) rest with
      | .error e => .error e
      | .ok s => .ok (formatProductBlock i p ++ s)

/-- `formatProductsAsContext(products)` (part_002 lines 405-423): the fixed
sentinel for an empty list, otherwise a header plus one block per product. -/
def formatProductsAsContext (products : List ScoredDoc) : Except Unit String :=
  if products.length = 0 then .ok "No relevant products found."
  else
    match formatProductBlocks 0 products with
    | .error e => .error e
    | .ok s => .ok ("Here are some relevant products that might help answer the question:\n\n" ++ s)

/-! ## Helper lemmas -/

theorem classifyQuery_trace (env : Env) (query : String) :
    (QueryProcessor.classifyQuery env query).2 =
      [CallEv.classifierLLM (QueryProcessor.classifierPrompt query)] := by
  unfold QueryProcessor.classifyQuery QueryProcessor.llmCall
  cases env.classifierLLM (QueryProcessor.classifierPrompt query) <;> rfl

/-! ## The claims -/

/-- C7: the price parser maps "1.990 TL" to 1990, "299,99 TL" to 299.99,
and the empty / absent price string to null. -/
theorem parsePrice_spec_values :
    parsePriceToNumber (some "1.990 TL") = some 1990
    ∧ parsePriceToNumber (some "299,99 TL") = some (299.99 : ℚ)
    ∧ parsePriceToNumber (some "") = none
    ∧ parsePriceToNumber none = none := by
  refine ⟨by decide, ?_, by decide, rfl⟩
  have h1 : parsePriceToNumber (some "299,99 TL") =
      some (Rat.mk' 29999 100 (by decide) (by decide)) := by decide
  rw [h1, Rat.mk'_eq_divInt, Rat.divInt_eq_div]
  norm_num

/-- C9 counterexample: on the empty document list, the `aggregateContext`
of part_002 returns the empty string, not a non-empty sentinel. -/
theorem aggregateContext_empty_is_empty_string :
    QueryProcessor.aggregateContext [] = Except.ok "" := rfl

/-- C9 (amended): on the empty list, part_002's `aggregateContext` yields
the empty string, ProductQueryService's yields its fixed non-empty header,
and only `formatProductsAsContext` yields the "no relevant results"
sentinel. -/
theorem aggregateContext_empty_outputs :
    QueryProcessor.aggregateContext [] = Except.ok ""
    ∧ ProductQueryService.aggregateContext [] =
        Except.ok "Here is information about relevant products:\n\n"
    ∧ formatProductsAsContext [] = Except.ok "No relevant products found."
    ∧ "Here is information about relevant products:\n\n" ≠ "" :=
  ⟨rfl, rfl, rfl, by decide⟩

/-- An environment in which every collaborator call fails. -/
def failingEnv : Env :=
  { classifierLLM := fun _ => .error (), datastore := .error (),
    embed := fun _ => .error (), qdrantSearch := fun _ => .error (),
    answerLLM := fun _ => .error () }

/-- An environment whose classifier LLM returns well-formed JSON whose mode
is none of the four permitted ones. -/
def unknownModeEnv : Env :=
  { classifierLLM := fun _ => .ok { mode := some "banana" },
    datastore := .ok [], embed := fun _ => .ok [1],
    qdrantSearch := fun _ => .ok [], answerLLM := fun _ => .ok (some "x") }

/-- C2 counterexample: when the LLM output parses as JSON but its mode is
not one of the four permitted modes, `classifyQuery` returns it unchanged
instead of failing closed to `declined`. -/
theorem classifyQuery_unknown_mode_passthrough :
    unknownModeEnv.classifierLLM (QueryProcessor.classifierPrompt "hello") =
      Except.ok { mode := some "banana" }
    ∧ (QueryProcessor.classifyQuery unknownModeEnv "hello").1.mode = some "banana"
    ∧ (QueryProcessor.classifyQuery unknownModeEnv "hello").1.mode ≠ some "declined"
    ∧ (QueryProcessor.classifyQuery unknownModeEnv "hello").1.message = none :=
  ⟨rfl, rfl, by decide, rfl⟩

/-- C2 (amended): when the classification LLM call fails (network error or
a body that is not valid JSON), `classifyQuery` returns `declined` with a
generic apology and does not propagate the error; JSON that parses but is
not one of the four modes is returned unchanged (see the counterexample)
and handled by the router's defensive default branch. -/
theorem classifyQuery_llm_failure_fails_closed (env : Env) (query : String)
    (h : env.classifierLLM (QueryProcessor.classifierPrompt query) = Except.error ()) :
    QueryProcessor.classifyQuery env query =
      ({ mode := some "declined",
         message := some "Sorry, I encountered an error processing your request." },
       [CallEv.classifierLLM (QueryProcessor.classifierPrompt query)]) := by
  unfold QueryProcessor.classifyQuery QueryProcessor.llmCall
  rw [h]

/-- C2 witness: in the all-failing environment the amended theorem applies
and its hypothesis holds definitionally. -/
theorem classifyQuery_llm_failure_fails_closed_witness :
    QueryProcessor.classifyQuery failingEnv "hello" =
      ({ mode := some "declined",
         message := some "Sorry, I encountered an error processing your request." },
       [CallEv.classifierLLM (QueryProcessor.classifierPrompt "hello")]) :=
  classifyQuery_llm_failure_fails_closed failingEnv "hello" rfl

/-- An environment whose classifier chooses the semantic mode with category
granularity and the category "face cream", and whose other collaborators
succeed. -/
def semanticCategoryEnv : Env :=
  { classifierLLM := fun _ => .ok
      { mode := some "semantic", semantic_type := some "category",
        category := some "face cream" },
    datastore := .ok [], embed := fun _ => .ok [1],
    qdrantSearch := fun _ => .ok [],
    answerLLM := fun _ => .ok (some "Here are some face creams.") }

/-- The search request that actually reaches the vector index on the
semantic path of `processUserQuery`: only the query vector, the limit 5 and
`with_payload` — no filter, no tuning parameters. -/
def droppedFilterReq : SearchRequest :=
  { vector := [1], limit := 5, with_payload := true }

/-- C3 (code-bug evidence): for a query classified semantic/category with a
category value, `processUserQuery` builds the subcategory filter and the
tuning defaults but `semanticSearch` ignores its `filters`/`searchParams`
arguments, so the issued vector-search request carries no filter and no
tuning values. -/
theorem semantic_search_ignores_filter_and_tuning :
    (QueryProcessor.classifyQuery semanticCategoryEnv "recommend a face cream").1 =
      { mode := some "semantic", semantic_type := some "category",
        category := some "face cream" }
    ∧ (QueryProcessor.processUserQuery semanticCategoryEnv "recommend a face cream").2 =
      [CallEv.classifierLLM (QueryProcessor.classifierPrompt "recommend a face cream"),
       CallEv.embed "recommend a face cream",
       CallEv.vectorSearch droppedFilterReq,
       CallEv.answerLLM (QueryProcessor.generatePromptBasedOnType "category" ""
         "recommend a face cream")]
    ∧ droppedFilterReq.filter = none
    ∧ droppedFilterReq.hnsw_ef = none
    ∧ droppedFilterReq.limit = 5 := by
  refine ⟨rfl, ?_, rfl, rfl, rfl⟩
  rfl

/-- C4: for a query classified declined, both pipeline entry points return
the classifier's message (through JavaScript truthiness: the generic
fallback when the message is missing or empty) and the only collaborator
call in the whole run is the classifier itself — no embedding, vector
search, datastore or answer-LLM call. -/
theorem declined_returns_message_no_downstream (env : Env) (query : String)
    (h : (QueryProcessor.classifyQuery env query).1.mode = some "declined") :
    QueryProcessor.processQuery env query =
      (jsOr (QueryProcessor.classifyQuery env query).1.message
        "I'm sorry, but I cannot answer that question.",
       [CallEv.classifierLLM (QueryProcessor.classifierPrompt query)])
    ∧ QueryProcessor.processUserQuery env query =
      (jsOr (QueryProcessor.classifyQuery env query).1.message
        "I'm sorry, but I cannot answer that.",
       [CallEv.classifierLLM (QueryProcessor.classifierPrompt query)]) := by
  have hr1 : QueryProcessor.processQueryRoute env query
      (QueryProcessor.classifyQuery env query).1 =
      (.ok (jsOr (QueryProcessor.classifyQuery env query).1.message
        "I'm sorry, but I cannot answer that question."), []) := by
    unfold QueryProcessor.processQueryRoute
    rw [h]
    rfl
  have hr2 : QueryProcessor.processUserQueryRoute env query
      (QueryProcessor.classifyQuery env query).1 =
      (.ok (jsOr (QueryProcessor.classifyQuery env query).1.message
        "I'm sorry, but I cannot answer that."), []) := by
    unfold QueryProcessor.processUserQueryRoute
    rw [h]
    rfl
  constructor
  · unfold QueryProcessor.processQuery QueryProcessor.processQueryBody
    rw [hr1, classifyQuery_trace]
    rfl
  · unfold QueryProcessor.processUserQuery QueryProcessor.processUserQueryBody
    rw [hr2, classifyQuery_trace]
    rfl

/-- An environment whose classifier declines with a concrete message. -/
def declinedEnv : Env :=
  { classifierLLM := fun _ => .ok
      { mode := some "declined", message := some "Out of scope." },
    datastore := .ok [], embed := fun _ => .ok [1],
    qdrantSearch := fun _ => .ok [], answerLLM := fun _ => .ok (some "x") }

/-- C4 witness: a concrete declined classification, message returned
verbatim, trace limited to the classifier call. -/
theorem declined_returns_message_no_downstream_witness :
    QueryProcessor.processQuery declinedEnv "who won the game" =
      ("Out of scope.",
       [CallEv.classifierLLM (QueryProcessor.classifierPrompt "who won the game")])
    ∧ QueryProcessor.processUserQuery declinedEnv "who won the game" =
      ("Out of scope.",
       [CallEv.classifierLLM (QueryProcessor.classifierPrompt "who won the game")]) :=
  declined_returns_message_no_downstream declinedEnv "who won the game" rfl

/-- C5: for a query classified direct with an absent (or empty, which
JavaScript treats the same) SQL string, `processQuery` returns the fixed
apology and the only collaborator call in the whole run is the classifier
— zero datastore and zero LLM calls. -/
theorem direct_without_sql_fixed_apology (env : Env) (query : String)
    (h1 : (QueryProcessor.classifyQuery env query).1.mode = some "direct")
    (h2 : truthyS (QueryProcessor.classifyQuery env query).1.sql = false) :
    QueryProcessor.processQuery env query =
      ("I understand this requires a direct database query, but I couldn't generate the SQL.",
       [CallEv.classifierLLM (QueryProcessor.classifierPrompt query)]) := by
  have hr : QueryProcessor.processQueryRoute env query
      (QueryProcessor.classifyQuery env query).1 =
      (.ok "I understand this requires a direct database query, but I couldn't generate the SQL.", []) := by
    unfold QueryProcessor.processQueryRoute
    rw [h1, h2]
    rfl
  unfold QueryProcessor.processQuery QueryProcessor.processQueryBody
  rw [hr, classifyQuery_trace]
  rfl

/-- An environment whose classifier answers direct without providing SQL. -/
def directNoSqlEnv : Env :=
  { classifierLLM := fun _ => .ok { mode := some "direct" },
    datastore := .ok [], embed := fun _ => .ok [1],
    qdrantSearch := fun _ => .ok [], answerLLM := fun _ => .ok (some "x") }

/-- C5 witness: a concrete direct classification without SQL. -/
theorem direct_without_sql_fixed_apology_witness :
    QueryProcessor.processQuery directNoSqlEnv "top rated lipsticks" =
      ("I understand this requires a direct database query, but I couldn't generate the SQL.",
       [CallEv.classifierLLM (QueryProcessor.classifierPrompt "top rated lipsticks")]) :=
  direct_without_sql_fixed_apology directNoSqlEnv "top rated lipsticks" rfl rfl

/-- A three-guard `if` cascade returns true exactly when all guards are
false. -/
theorem triple_guard_eq_true (a b c : Bool) :
    (if a then false else if b then false else if c then false else true) = true ↔
      a = false ∧ b = false ∧ c = false := by
  cases a <;> cases b <;> cases c <;> simp

/-- The lower-bound guard of `priceKeep` fails exactly when every nonzero
lower bound is at most the price. -/
theorem minBound_ok_iff (minPrice : Option ℚ) (v : ℚ) :
    (truthyQ minPrice && decide (v < minPrice.getD 0)) = false ↔
      (∀ m : ℚ, minPrice = some m → m ≠ 0 → m ≤ v) := by
  cases minPrice with
  | none => simp [truthyQ]
  | some m =>
    by_cases hm : m = 0
    · subst hm; simp [truthyQ]
    · simp [truthyQ, hm, not_lt]

/-- The upper-bound guard of `priceKeep` fails exactly when the price is at
most every nonzero upper bound. -/
theorem maxBound_ok_iff (maxPrice : Option ℚ) (v : ℚ) :
    (truthyQ maxPrice && decide (maxPrice.getD 0 < v)) = false ↔
      (∀ m : ℚ, maxPrice = some m → m ≠ 0 → v ≤ m) := by
  cases maxPrice with
  | none => simp [truthyQ]
  | some m =>
    by_cases hm : m = 0
    · subst hm; simp [truthyQ]
    · simp [truthyQ, hm, not_lt]

/-- The keep-condition of `priceKeep`, extensionally: a payload exists, its
price parses to a nonzero value, and each nonzero bound is respected. -/
theorem priceKeep_eq_true_iff (minPrice maxPrice : Option ℚ) (r : ScoredDoc) :
    ProductQueryService.priceKeep minPrice maxPrice r = true ↔
      ∃ payload, r.payload = some payload ∧
        ∃ v : ℚ, parsePriceToNumber payload.price = some v ∧ v ≠ 0 ∧
          (∀ m : ℚ, minPrice = some m → m ≠ 0 → m ≤ v) ∧
          (∀ m : ℚ, maxPrice = some m → m ≠ 0 → v ≤ m) := by
  obtain ⟨score, payload⟩ := r
  cases payload with
  | none => simp [ProductQueryService.priceKeep]
  | some payload =>
    simp only [ProductQueryService.priceKeep, Option.some.injEq, exists_eq_left']
    cases hv : parsePriceToNumber payload.price with
    | none => simp [truthyQ]
    | some v =>
      rw [triple_guard_eq_true]
      simp only [Option.getD_some]
      rw [minBound_ok_iff, maxBound_ok_iff]
      simp [truthyQ]

/-- C6 (amended): the price post-filter is the identity when both bounds
are absent; its output is always a sublist of its input (relative order
preserved); and when at least one bound is truthy (present and nonzero) a
record survives exactly when it has a payload whose price parses to a
nonzero value respecting every nonzero bound — so records with
unparseable, missing or zero prices are dropped, and a zero bound imposes
no constraint. -/
theorem applyPriceFilter_characterization (results : List ScoredDoc)
    (minPrice maxPrice : Option ℚ) :
    ProductQueryService.applyPriceFilter results none none = results
    ∧ (ProductQueryService.applyPriceFilter results minPrice maxPrice).Sublist results
    ∧ ((truthyQ minPrice || truthyQ maxPrice) = true →
        ∀ r : ScoredDoc,
          r ∈ ProductQueryService.applyPriceFilter results minPrice maxPrice ↔
            (r ∈ results ∧ ∃ payload, r.payload = some payload ∧
              ∃ v : ℚ, parsePriceToNumber payload.price = some v ∧ v ≠ 0 ∧
                (∀ m : ℚ, minPrice = some m → m ≠ 0 → m ≤ v) ∧
                (∀ m : ℚ, maxPrice = some m → m ≠ 0 → v ≤ m))) := by
  refine ⟨rfl, ?_, ?_⟩
  · unfold ProductQueryService.applyPriceFilter
    split
    · exact List.Sublist.refl results
    · exact List.filter_sublist results
  · intro htruthy r
    unfold ProductQueryService.applyPriceFilter
    rw [if_neg (by
      rcases Bool.or_eq_true_iff.mp htruthy with h | h <;> simp [h])]
    rw [List.mem_filter, priceKeep_eq_true_iff]

/-- The price filter as §4.3a of the specification words it, for
refinement comparison: a no-op iff both bounds are absent; otherwise keep
exactly the records whose price parses to a value inside the bounds, an
absent bound imposing no constraint on its side. -/
def filterByPriceSpec (results : List ScoredDoc) (minPrice maxPrice : Option ℚ) :
    List ScoredDoc :=
  if minPrice = none ∧ maxPrice = none then results
  else results.filter (fun r =>
    match parsePriceToNumber (r.payload.bind ProductPayload.price) with
    | none => false
    | some v =>
      (match minPrice with | none => true | some m => decide (m ≤ v)) &&
      (match maxPrice with | none => true | some m => decide (v ≤ m)))

/-- A retrieved record whose price string parses to 0. -/
def zeroPriceDoc : ScoredDoc :=
  { score := 1, payload := some { name := some "Sample", price := some "0 TL" } }

/-- C6 counterexample: a record whose price parses to 0 lies inside the
bounds (no lower bound, upper bound 10), so the claimed filter keeps it,
but `applyPriceFilter` drops it. -/
theorem applyPriceFilter_drops_in_range_zero_price :
    parsePriceToNumber (some "0 TL") = some 0
    ∧ ProductQueryService.applyPriceFilter [zeroPriceDoc] none (some 10) = []
    ∧ filterByPriceSpec [zeroPriceDoc] none (some 10) = [zeroPriceDoc] :=
  ⟨by decide, by decide, by decide⟩

/-- A record with a price inside the witness bounds. -/
def cheapDoc : ScoredDoc :=
  { score := 1, payload := some { name := some "Cream A", price := some "175 TL" } }

/-- A record with a price outside the witness bounds. -/
def dearDoc : ScoredDoc :=
  { score := ratOfFrac 9 10,
    payload := some { name := some "Cream B", price := some "1.990 TL" } }

/-- C6 witness: the characterization applied to a concrete list and bound,
with the membership hypothesis discharged by evaluation. -/
theorem applyPriceFilter_characterization_witness :
    cheapDoc ∈ [cheapDoc, dearDoc] ∧ ∃ payload, cheapDoc.payload = some payload ∧
      ∃ v : ℚ, parsePriceToNumber payload.price = some v ∧ v ≠ 0 ∧
        (∀ m : ℚ, (none : Option ℚ) = some m → m ≠ 0 → m ≤ v) ∧
        (∀ m : ℚ, some (200 : ℚ) = some m → m ≠ 0 → v ≤ m) :=
  ((applyPriceFilter_characterization [cheapDoc, dearDoc] none (some 200)).2.2
    (by decide) cheapDoc).mp (by decide)

/-- A zero lower bound is indistinguishable from an absent one in
`priceKeep`. -/
theorem priceKeep_zero_min (maxPrice : Option ℚ) (r : ScoredDoc) :
    ProductQueryService.priceKeep (some 0) maxPrice r =
      ProductQueryService.priceKeep none maxPrice r := by
  simp [ProductQueryService.priceKeep, truthyQ]

/-- A zero upper bound is indistinguishable from an absent one in
`priceKeep`. -/
theorem priceKeep_zero_max (minPrice : Option ℚ) (r : ScoredDoc) :
    ProductQueryService.priceKeep minPrice (some 0) r =
      ProductQueryService.priceKeep minPrice none r := by
  simp [ProductQueryService.priceKeep, truthyQ]

/-- C10: a bound equal to 0 is treated as absent (substituting a zero
bound for an absent one never changes the output, and with both bounds 0
the filter is the identity), and whenever some truthy (nonzero) bound is
supplied, every record whose payload is missing or whose price parses to
exactly 0 is dropped, regardless of the bounds. -/
theorem applyPriceFilter_zero_bound_semantics (results : List ScoredDoc)
    (minPrice maxPrice : Option ℚ) (r : ScoredDoc) :
    ProductQueryService.applyPriceFilter results (some 0) (some 0) = results
    ∧ ProductQueryService.applyPriceFilter results (some 0) maxPrice =
        ProductQueryService.applyPriceFilter results none maxPrice
    ∧ ProductQueryService.applyPriceFilter results minPrice (some 0) =
        ProductQueryService.applyPriceFilter results minPrice none
    ∧ ((truthyQ minPrice || truthyQ maxPrice) = true → r ∈ results →
        (r.payload = none ∨ ∃ payload, r.payload = some payload ∧
          parsePriceToNumber payload.price = some 0) →
        r ∉ ProductQueryService.applyPriceFilter results minPrice maxPrice) := by
  refine ⟨rfl, ?_, ?_, ?_⟩
  · unfold ProductQueryService.applyPriceFilter
    rw [show truthyQ (some (0 : ℚ)) = false from rfl,
      show truthyQ (none : Option ℚ) = false from rfl,
      List.filter_congr (fun x _ => priceKeep_zero_min maxPrice x)]
  · unfold ProductQueryService.applyPriceFilter
    rw [show truthyQ (some (0 : ℚ)) = false from rfl,
      show truthyQ (none : Option ℚ) = false from rfl,
      List.filter_congr (fun x _ => priceKeep_zero_max minPrice x)]
  · intro htruthy hmem hbad habs
    unfold ProductQueryService.applyPriceFilter at habs
    rw [if_neg (by
      rcases Bool.or_eq_true_iff.mp htruthy with h | h <;> simp [h])] at habs
    have hkeep := (List.mem_filter.mp habs).2
    rw [priceKeep_eq_true_iff] at hkeep
    rcases hkeep with ⟨p, hp, v, hv, hv0, _, _⟩
    rcases hbad with hnone | ⟨p', hp', hzero⟩
    · rw [hnone] at hp; exact Option.noConfusion hp
    · rw [hp'] at hp
      cases hp
      rw [hzero] at hv
      exact hv0 (Option.some.injEq _ _ ▸ hv).symm

/-- A retrieved record with no payload at all. -/
def noPayloadDoc : ScoredDoc := { score := 1, payload := none }

/-- C10 witness: with a concrete nonzero lower bound, a record without a
payload is dropped. -/
theorem applyPriceFilter_zero_bound_semantics_witness :
    noPayloadDoc ∉ ProductQueryService.applyPriceFilter [noPayloadDoc] (some 5) none :=
  (applyPriceFilter_zero_bound_semantics [noPayloadDoc] (some 5) none
    noPayloadDoc).2.2.2 (by decide) (by decide) (Or.inl rfl)

/-- Truthiness of `some s` reduces to the decidable emptiness of `s`. -/
theorem truthyS_some (s : String) : truthyS (some s) = !decide (s = "") := by
  by_cases hs : s = ""
  · subst hs; rfl
  · have hie : s.isEmpty = false :=
      Bool.eq_false_iff.mpr fun h => hs ((String.isEmpty_iff s).mp h)
    simp [truthyS, hie, hs]

/-- A truthy optional string is a nonempty string. -/
theorem truthyS_true_iff (o : Option String) :
    truthyS o = true ↔ ∃ s, o = some s ∧ s ≠ "" := by
  cases o with
  | none => simp [truthyS]
  | some s =>
    rw [truthyS_some]
    by_cases hs : s = "" <;> simp [hs]

/-- Membership of a keyed condition in one optional singleton of the
filter builder. -/
theorem opt_cond_mem_iff (o : Option String) (k v : String) :
    (Condition.mk k v ∈
      (if truthyS o then [Condition.mk k (o.getD "")] else [])) ↔
      o = some v ∧ v ≠ "" := by
  cases o with
  | none => simp [truthyS]
  | some s =>
    by_cases hs : s = ""
    · subst hs
      rw [if_neg (by decide)]
      simp
      exact fun h => h.symm
    · rw [if_pos (by rw [truthyS_some]; simp [hs])]
      simp only [Option.getD_some, List.mem_singleton, Condition.mk.injEq,
        true_and, Option.some.injEq]
      constructor
      · rintro rfl; exact ⟨rfl, hs⟩
      · rintro ⟨h, _⟩; exact h.symm

/-- A condition with a different key never belongs to an optional
singleton of the filter builder. -/
theorem opt_cond_not_mem (o : Option String) (k k' v : String) (hkk : k ≠ k') :
    Condition.mk k v ∉
      (if truthyS o then [Condition.mk k' (o.getD "")] else []) := by
  split
  · simp [hkk]
  · simp

/-- Every condition in an optional singleton of the filter builder carries
that singleton's key. -/
theorem opt_cond_key (o : Option String) (k : String) (c : Condition)
    (hc : c ∈ (if truthyS o then [Condition.mk k (o.getD "")] else [])) :
    c.key = k := by
  revert hc
  split
  · intro hc
    rw [List.mem_singleton.mp hc]
  · intro hc
    exact absurd hc (List.not_mem_nil c)

/-- The answer-LLM wrapper of ProductQueryService records exactly one
call. -/
theorem pqs_openaiLlmCall_trace (env : Env) (p : String) :
    (ProductQueryService.openaiLlmCall env p).2 = [CallEv.answerLLM p] := by
  unfold ProductQueryService.openaiLlmCall
  cases env.answerLLM p <;> rfl

/-- A truthy option together with its default-free value is the same as a
populated nonempty field. -/
theorem truthy_getD_iff (o : Option String) (v : String) :
    (truthyS o = true ∧ v = o.getD "") ↔ (o = some v ∧ ¬v = "") := by
  cases o with
  | none => simp [truthyS]
  | some s =>
    constructor
    · rintro ⟨ht, rfl⟩
      rcases (truthyS_true_iff _).mp ht with ⟨s', hs', hs0⟩
      injection hs' with h
      subst h
      exact ⟨rfl, by simpa using hs0⟩
    · rintro ⟨ho, hv⟩
      injection ho with h
      subst h
      exact ⟨(truthyS_true_iff _).mpr ⟨_, rfl, hv⟩, rfl⟩

/-- The condition list the filter builder accumulates, named for the
proofs below (definitionally the `conditions` local of
`buildQdrantFilter`). -/
def condListOf (options : SearchOptions) : List Condition :=
  (if truthyS options.subcategory then
    [{ key := "subcategory", value := options.subcategory.getD "" }] else []) ++
  (if truthyS options.mensei then
    [{ key := "mensei", value := options.mensei.getD "" }] else []) ++
  (if truthyS options.renk then
    [{ key := "renk", value := options.renk.getD "" }] else [])

theorem buildQdrantFilter_eq (options : SearchOptions) :
    ProductQueryService.buildQdrantFilter options =
      if (condListOf options).length = 0 then none
      else some (JFilter.mustObj (condListOf options)) := rfl

/-- C8: the filter builder returns `undefined` exactly when no
equality-filterable option field (subcategory, origin, color) is populated
— never an empty structure — and otherwise a must-conjunction holding
exactly one equality condition per populated field; and whenever the
builder returned `undefined`, the vector-search request issued by the
retrieval pipeline carries no filter at all. -/
theorem buildQdrantFilter_characterization (options : SearchOptions)
    (env : Env) (query : String) :
    (ProductQueryService.buildQdrantFilter options = none ↔
      truthyS options.subcategory = false ∧ truthyS options.mensei = false ∧
        truthyS options.renk = false)
    ∧ (∀ conds,
        ProductQueryService.buildQdrantFilter options = some (JFilter.mustObj conds) →
        conds ≠ []
        ∧ conds.length = (if truthyS options.subcategory then 1 else 0) +
            (if truthyS options.mensei then 1 else 0) +
            (if truthyS options.renk then 1 else 0)
        ∧ (∀ v, Condition.mk "subcategory" v ∈ conds ↔
            options.subcategory = some v ∧ v ≠ "")
        ∧ (∀ v, Condition.mk "mensei" v ∈ conds ↔
            options.mensei = some v ∧ v ≠ "")
        ∧ (∀ v, Condition.mk "renk" v ∈ conds ↔
            options.renk = some v ∧ v ≠ "")
        ∧ (∀ c ∈ conds, c.key = "subcategory" ∨ c.key = "mensei" ∨ c.key = "renk"))
    ∧ (∀ f, ProductQueryService.buildQdrantFilter options = some f → f ≠ JFilter.emptyObj)
    ∧ (ProductQueryService.buildQdrantFilter options = none →
        ∀ req, CallEv.vectorSearch req ∈
            (ProductQueryService.processQuery env query options).2 →
          req.filter = none) := by
  refine ⟨?_, ?_, ?_, ?_⟩
  · rw [buildQdrantFilter_eq]
    unfold condListOf
    cases hS : truthyS options.subcategory <;> cases hM : truthyS options.mensei <;>
      cases hR : truthyS options.renk <;> simp
  · intro conds hconds
    rw [buildQdrantFilter_eq] at hconds
    by_cases hlen : (condListOf options).length = 0
    · rw [if_pos hlen] at hconds
      exact absurd hconds (by simp)
    · rw [if_neg hlen] at hconds
      rw [Option.some.injEq, JFilter.mustObj.injEq] at hconds
      subst hconds
      refine ⟨?_, ?_, ?_, ?_, ?_, ?_⟩
      · intro hnil
        rw [hnil] at hlen
        exact hlen rfl
      · unfold condListOf
        cases hS : truthyS options.subcategory <;> cases hM : truthyS options.mensei <;>
          cases hR : truthyS options.renk <;> simp
      · intro v
        have h2 := opt_cond_not_mem options.mensei "subcategory" "mensei" v (by decide)
        have h3 := opt_cond_not_mem options.renk "subcategory" "renk" v (by decide)
        simp [condListOf, List.mem_append, opt_cond_mem_iff, h2, h3]
        exact truthy_getD_iff _ _
      · intro v
        have h1 := opt_cond_not_mem options.subcategory "mensei" "subcategory" v (by decide)
        have h3 := opt_cond_not_mem options.renk "mensei" "renk" v (by decide)
        simp [condListOf, List.mem_append, opt_cond_mem_iff, h1, h3]
        exact truthy_getD_iff _ _
      · intro v
        have h1 := opt_cond_not_mem options.subcategory "renk" "subcategory" v (by decide)
        have h2 := opt_cond_not_mem options.mensei "renk" "mensei" v (by decide)
        simp [condListOf, List.mem_append, opt_cond_mem_iff, h1, h2]
        exact truthy_getD_iff _ _
      · intro c hc
        unfold condListOf at hc
        rcases List.mem_append.mp hc with hc' | hc'
        · rcases List.mem_append.mp hc' with hc'' | hc''
          · exact Or.inl (opt_cond_key _ _ _ hc'')
          · exact Or.inr (Or.inl (opt_cond_key _ _ _ hc''))
        · exact Or.inr (Or.inr (opt_cond_key _ _ _ hc'))
  · intro f hf
    rw [buildQdrantFilter_eq] at hf
    by_cases hlen : (condListOf options).length = 0
    · rw [if_pos hlen] at hf
      exact absurd hf (by simp)
    · rw [if_neg hlen] at hf
      rw [Option.some.injEq] at hf
      rw [← hf]
      simp
  · intro hnone req hmem
    unfold ProductQueryService.processQuery at hmem
    rw [hnone] at hmem
    unfold ProductQueryService.semanticSearch at hmem
    cases hemb : env.embed query with
    | error e =>
      rw [hemb] at hmem
      simp at hmem
    | ok vec =>
      rw [hemb] at hmem
      dsimp only at hmem
      cases hq : env.qdrantSearch
          (ProductQueryService.mkSearchRequest vec none 128 "approximate" 10) with
      | error e =>
        rw [hq] at hmem
        simp at hmem
        rw [hmem]
        rfl
      | ok docs =>
        rw [hq] at hmem
        dsimp only at hmem
        cases hagg : ProductQueryService.aggregateContext
            ((ProductQueryService.applyPriceFilter docs options.minPrice
              options.maxPrice).take 5) with
        | error e =>
          rw [hagg] at hmem
          simp at hmem
          rw [hmem]
          rfl
        | ok context =>
          rw [hagg] at hmem
          dsimp only at hmem
          rw [pqs_openaiLlmCall_trace] at hmem
          simp at hmem
          rw [hmem]
          rfl

/-- An environment for exercising the retrieval pipeline alone. -/
def plainSearchEnv : Env :=
  { classifierLLM := fun _ => .error (), datastore := .ok [],
    embed := fun _ => .ok [1], qdrantSearch := fun _ => .ok [],
    answerLLM := fun _ => .ok (some "ok") }

/-- The request the retrieval pipeline issues in `plainSearchEnv` when the
filter builder returned `undefined`. -/
def plainReq : SearchRequest :=
  ProductQueryService.mkSearchRequest [1] none 128 "approximate" 10

/-- C8 witness: with no option populated the issued request carries no
filter, obtained by applying the characterization at a concrete run. -/
theorem buildQdrantFilter_characterization_witness :
    plainReq.filter = none :=
  (buildQdrantFilter_characterization {} plainSearchEnv "face cream").2.2.2
    rfl plainReq (by decide)

/-- `o || d` is nonempty whenever the fallback `d` is. -/
theorem jsOr_ne_empty (o : Option String) (d : String) (hd : d ≠ "") :
    jsOr o d ≠ "" := by
  unfold jsOr
  split
  · next ht =>
    rcases (truthyS_true_iff o).mp ht with ⟨s, hs, hs0⟩
    rw [hs]
    simpa using hs0
  · exact hd

/-- A successful part_002 answer-LLM call never returns the empty string
(an empty or null content is replaced by the fixed apology). -/
theorem qp_openaiLlmCall_ok_ne_empty (env : Env) (p s : String)
    (h : (QueryProcessor.openaiLlmCall env p).1 = Except.ok s) : s ≠ "" := by
  unfold QueryProcessor.openaiLlmCall at h
  cases hc : env.answerLLM p with
  | error e =>
    rw [hc] at h
    exact absurd h (by simp)
  | ok content =>
    rw [hc] at h
    dsimp only at h
    injection h with h2
    rw [← h2]
    exact jsOr_ne_empty _ _ (by decide)

/-- The semantic tail shared by both routers yields a nonempty answer on
success. -/
theorem semanticTail_ok_ne_empty (env : Env) (query stype : String)
    (ss : Except Unit (List ScoredDoc) × List CallEv) (s : String)
    (t : List CallEv)
    (h : (match ss with
      | (Except.error e, t) => (Except.error e, t)
      | (Except.ok searchResults, t) =>
        match QueryProcessor.aggregateContext searchResults with
        | Except.error e => (Except.error e, t)
        | Except.ok context =>
          ((QueryProcessor.openaiLlmCall env
              (QueryProcessor.generatePromptBasedOnType stype context query)).1,
            t ++ (QueryProcessor.openaiLlmCall env
              (QueryProcessor.generatePromptBasedOnType stype context query)).2)) =
      (Except.ok s, t)) :
    s ≠ "" := by
  rcases ss with ⟨res1, t1⟩
  cases res1 with
  | error e => exact absurd h (by simp)
  | ok searchResults =>
    dsimp only at h
    cases hag : QueryProcessor.aggregateContext searchResults with
    | error e =>
      rw [hag] at h
      exact absurd h (by simp)
    | ok context =>
      rw [hag] at h
      dsimp only at h
      rw [Prod.mk.injEq] at h
      exact qp_openaiLlmCall_ok_ne_empty env _ s h.1

/-- Every successful branch of the `processQuery` router produces a
nonempty answer. -/
theorem processQueryRoute_ok_ne_empty (env : Env) (query : String)
    (c : Classification) (s : String) (t : List CallEv)
    (h : QueryProcessor.processQueryRoute env query c = (Except.ok s, t)) :
    s ≠ "" := by
  unfold QueryProcessor.processQueryRoute at h
  split at h
  · -- direct
    split at h
    · split at h
      · exact absurd h (by simp)
      · dsimp only at h
        rw [Prod.mk.injEq] at h
        exact qp_openaiLlmCall_ok_ne_empty env _ s h.1
    · rw [Prod.mk.injEq] at h
      injection h.1 with h1
      rw [← h1]
      decide
  · -- semantic
    dsimp only at h
    exact semanticTail_ok_ne_empty env query _ _ s t h
  · -- non_rag
    dsimp only at h
    exact qp_openaiLlmCall_ok_ne_empty env _ s (congrArg Prod.fst h)
  · -- declined
    rw [Prod.mk.injEq] at h
    injection h.1 with h1
    rw [← h1]
    exact jsOr_ne_empty _ _ (by decide)
  · -- default
    rw [Prod.mk.injEq] at h
    injection h.1 with h1
    rw [← h1]
    decide

/-- Every successful branch of the `processUserQuery` router produces a
nonempty answer. -/
theorem processUserQueryRoute_ok_ne_empty (env : Env) (query : String)
    (c : Classification) (s : String) (t : List CallEv)
    (h : QueryProcessor.processUserQueryRoute env query c = (Except.ok s, t)) :
    s ≠ "" := by
  unfold QueryProcessor.processUserQueryRoute at h
  split at h
  · -- declined
    rw [Prod.mk.injEq] at h
    injection h.1 with h1
    rw [← h1]
    exact jsOr_ne_empty _ _ (by decide)
  · -- direct
    dsimp only at h
    split at h
    · exact absurd h (by simp)
    · rw [Prod.mk.injEq] at h
      exact qp_openaiLlmCall_ok_ne_empty env _ s h.1
  · -- semantic
    dsimp only at h
    exact semanticTail_ok_ne_empty env query _ _ s t h
  · -- non_rag
    dsimp only at h
    exact qp_openaiLlmCall_ok_ne_empty env _ s (congrArg Prod.fst h)
  · -- fallback
    rw [Prod.mk.injEq] at h
    injection h.1 with h1
    rw [← h1]
    decide

/-- C1: whatever the environment does — every collaborator may fail at any
stage — both pipeline entry points return a plain, non-empty string: every
error is caught inside and converted to a message. -/
theorem processQuery_never_throws_nonempty (env : Env) (query : String) :
    (QueryProcessor.processQuery env query).1 ≠ ""
    ∧ (QueryProcessor.processUserQuery env query).1 ≠ "" := by
  constructor
  · unfold QueryProcessor.processQuery QueryProcessor.processQueryBody
    rcases hroute : QueryProcessor.processQueryRoute env query
      (QueryProcessor.classifyQuery env query).1 with ⟨res, tr⟩
    cases res with
    | ok s =>
      dsimp only
      exact processQueryRoute_ok_ne_empty env query _ s tr hroute
    | error e =>
      dsimp only
      decide
  · unfold QueryProcessor.processUserQuery QueryProcessor.processUserQueryBody
    rcases hroute : QueryProcessor.processUserQueryRoute env query
      (QueryProcessor.classifyQuery env query).1 with ⟨res, tr⟩
    cases res with
    | ok s =>
      dsimp only
      exact processUserQueryRoute_ok_ne_empty env query _ s tr hroute
    | error e =>
      dsimp only
      decide
